import Mathlib

/-!
Shallow embedding of the H-Req request-composition, response-handling and
history-persistence logic (src/hreq.py and src/main.py; the two files share
this logic verbatim).  The GUI widget layer is out of scope: widget state
(combo-box selections, text fields, the history tree) is passed in and
returned explicitly.  Calls into external libraries (`json.loads`,
`json.dumps`, `requests`) are modelled by oracle arguments or small
faithful models, each marked below.
-/

/-- The seven HTTP verbs offered by `http_verbs` in `init_request_section`. -/
inductive Verb where
  | GET | POST | PUT | PATCH | DELETE | OPTIONS | HEAD
deriving DecidableEq, Repr

/-- The combo-box text of a verb (the strings of the `http_verbs` list). -/
def Verb.text : Verb → String
  | .GET => "GET"
  | .POST => "POST"
  | .PUT => "PUT"
  | .PATCH => "PATCH"
  | .DELETE => "DELETE"
  | .OPTIONS => "OPTIONS"
  | .HEAD => "HEAD"

/-- The order in which `http_verbs_map` iterates (Python dict insertion order
of the `http_verbs` list). -/
def verbs : List Verb := [.GET, .POST, .PUT, .PATCH, .DELETE, .OPTIONS, .HEAD]

/-- The three content-type labels of the `request_content_types` combo box. -/
inductive ContentTypeLabel where
  | PLAIN | JSON | XML
deriving DecidableEq, Repr

/-- The combo-box text of a content-type label. -/
def contentTypeText : ContentTypeLabel → String
  | .PLAIN => "PLAIN"
  | .JSON => "JSON"
  | .XML => "XML"

/-- The `request_content_type` string computed by the if/elif chain at the top
of `process_request`.  Note the trailing space in the XML case, transcribed
exactly from the source (`request_content_type = "application/xml "`). -/
def requestContentType : ContentTypeLabel → String
  | .PLAIN => "text/plain"
  | .JSON => "application/json"
  | .XML => "application/xml "

/-- JSON values, as produced by the standard-library `json.loads` on the data
this application handles.  Numbers are restricted to integers: every number
the application itself serialises is absent (all persisted fields are
strings), so the restriction is immaterial to the verified properties. -/
inductive Json where
  | null
  | bool (b : Bool)
  | num (n : Int)
  | str (s : String)
  | arr (xs : List Json)
  | obj (fields : List (String × Json))

/-- Python `str.strip()` with no argument: the string without its leading and
trailing whitespace (an executable character-list form; the Python version
also strips a few rarer Unicode space characters none of the claims turn
on). -/
def pyStrip (s : String) : String :=
  String.mk ((s.data.dropWhile Char.isWhitespace).reverse.dropWhile
    Char.isWhitespace).reverse

/-- Python `str.lower()` on the ASCII strings handled here (an executable
character-list form). -/
def pyLower (s : String) : String :=
  String.mk (s.data.map Char.toLower)

/-- Python `str.startswith(pre)` (an executable character-list form). -/
def pyStartswith (s pre : String) : Bool :=
  pre.data.isPrefixOf s.data

/-- The `data` value computed by the "Define data depending on the method"
block of `process_request`: `data = None`, then `data = body_text` whenever
`body_text.strip()` is truthy, with the inner method/content-type branches
re-assigning the same `body_text` value. -/
def computeData (selected_http_verb : String) (request_content_type : String)
    (body_text : String) : Option String :=
  if pyStrip body_text = "" then
    none
  else
    if selected_http_verb ∈ (["POST", "PUT", "PATCH"] : List String) then
      if request_content_type = "text/plain" then some body_text
      else if request_content_type = "application/json" then some body_text
      else if request_content_type = "application/xml" then some body_text
      else some body_text
    else
      some body_text

/-- Python `dict` assignment `d[k] = v`: replace the value of an existing key
in place, otherwise append the new key at the end. -/
def dictInsert (d : List (String × Json)) (k : String) (v : Json) :
    List (String × Json) :=
  if d.any (fun p => p.1 = k) then
    d.map (fun p => if p.1 = k then (k, v) else p)
  else
    d ++ [(k, v)]

/-- Python `dict.update`: apply every key/value pair of `upd` to `d` in
order. -/
def dictUpdate (d : List (String × Json)) (upd : List (String × Json)) :
    List (String × Json) :=
  upd.foldl (fun acc p => dictInsert acc p.1 p.2) d

/-- Python `dict` lookup on a dict with (as built here) unique keys: the first
matching key. -/
def dictGet (d : List (String × Json)) (k : String) : Option Json :=
  (d.find? (fun p => p.1 = k)).map (fun p => p.2)

/-- Lookup returning the value of the last occurrence of `k`.  This is the
lookup matching the semantics of a dict built from a key/value list (later
duplicates win), as `json.loads` builds its object dicts. -/
def lastGet (d : List (String × Json)) (k : String) : Option Json :=
  match d with
  | [] => none
  | (k1, v1) :: rest =>
    match lastGet rest k with
    | some v => some v
    | none => if k1 = k then some v1 else none

/-- The effective header map of `process_request`:
`headers = {"Content-Type": request_content_type}` followed by
`headers.update(custom_headers)`. -/
def effectiveHeaders (label : ContentTypeLabel)
    (custom : List (String × Json)) : List (String × Json) :=
  dictUpdate [("Content-Type", Json.str (requestContentType label))] custom

/-- The five string fields stored as `_request_fields` on a history entry. -/
structure RequestFields where
  selected_http_verb : String
  selected_url : String
  content_type_text : String
  body_text : String
  headers_text : String
deriving DecidableEq, Repr

/-- One child item of a verb node in the request-history tree: its display
text (column 0) and its `_request_fields` payload. -/
structure HistEntry where
  label : String
  fields : RequestFields
deriving DecidableEq, Repr

/-- The request-history tree (`request_history_http_verbs`): the ordered
children of each verb's top-level item. -/
abbrev Store := Verb → List HistEntry

/-- The history tree at application start: every verb node has no children. -/
def emptyStore : Store := fun _ => []

/-- The fixed timeout passed to `requests.request`. -/
def REQUEST_TIMEOUT_SEC : Nat := 30

/-- Modelled from the requests library: the observable parts of a response
object used by `process_request`.  `jsonResult` is the oracle for
`response.json()` (a parse of the body by the external json library):
`Except.error e` means that call raises with message `e`. -/
structure HttpResponse where
  status_code : Nat
  reason : String
  url : String
  headers : List (String × String)
  text : String
  jsonResult : Except String Json
  elapsed : String
  content_size : Nat

/-- Modelled from the requests library: lookup in the response's
`CaseInsensitiveDict` of headers; `none` models a `KeyError`. -/
def headerLookupCI (hs : List (String × String)) (k : String) : Option String :=
  (hs.find? (fun p => pyLower p.1 = pyLower k)).map (fun p => p.2)

/-- Modelled from the requests library: the message of the `HTTPError` raised
by `response.raise_for_status()` (only called when 400 <= status < 600). -/
def raiseForStatusMsg (r : HttpResponse) : String :=
  if r.status_code < 500 then
    toString r.status_code ++ " Client Error: " ++ r.reason ++ " for url: " ++ r.url
  else
    toString r.status_code ++ " Server Error: " ++ r.reason ++ " for url: " ++ r.url

/-- Python `str(KeyError(k))`: the key wrapped in single quotes. -/
def quoteKey (k : String) : String :=
  (Char.ofNat 39).toString ++ k ++ (Char.ofNat 39).toString

/-- What `process_request` writes into the response area
(`response_text_edit`).  `jsonPretty j` stands for
`setText(json_to_str(response.json()))`, i.e. the 4-space-indented
pretty-print of `j` produced by the external `json.dumps`; no verified
property depends on that rendered text, so it is kept abstract. -/
inductive ResponseDisplay where
  | html (s : String)
  | plain (s : String)
  | jsonPretty (j : Json)

/-- The request descriptor handed to `requests.request(...)`. -/
structure SentRequest where
  method : String
  url : String
  data : Option String
  headers : List (String × Json)
  timeout : Nat

/-- The observable effect of one `process_request` call: what was written to
the response area (`none` = left unchanged), what was shown on the status
bar, the updated history tree, and the request handed to the HTTP client
(`none` = `requests.request` never reached). -/
structure ProcResult where
  response_set : Option ResponseDisplay
  status_set : Option String
  store : Store
  sent : Option SentRequest

/-- The header-merge step of `process_request`: when `headers_text.strip()`
is falsy the default map is kept; otherwise `json.loads(headers_text)` and
`headers.update(custom_headers)` run inside one try/except.  The
`headersParse` oracle stands for that pair of external calls:
`Except.ok custom` is the parsed object's key/value pairs,
`Except.error err` means one of the two calls raises with message `err`
(a json decode error, or the update's rejection of a non-dict value). -/
def mergedHeaders (label : ContentTypeLabel) (headers_text : String)
    (headersParse : Except String (List (String × Json))) :
    Except String (List (String × Json)) :=
  if pyStrip headers_text = "" then
    Except.ok [("Content-Type", Json.str (requestContentType label))]
  else
    match headersParse with
    | Except.error err => Except.error err
    | Except.ok custom_headers => Except.ok (effectiveHeaders label custom_headers)

/-- The response branch of the try block in `process_request`:
`raise_for_status`, then the `Content-Type` lookup, then the render branch.
`Except.error details` means an exception with message `details` reaches the
`except` handler; `Except.ok (display, response_content_type)` carries what
was written to the response area and the resolved content-type label. -/
def responseOutcome (response : HttpResponse) :
    Except String (Option ResponseDisplay × String) :=
  if 400 ≤ response.status_code ∧ response.status_code < 600 then
    Except.error (raiseForStatusMsg response)
  else
    match headerLookupCI response.headers "Content-Type" with
    | none => Except.error (quoteKey "Content-Type")
    | some ct =>
      if pyStartswith ct "text/html" then
        Except.ok (some (ResponseDisplay.html response.text), "text/html")
      else if pyStartswith ct "application/json" then
        match response.jsonResult with
        | Except.error jerr => Except.error jerr
        | Except.ok j => Except.ok (some (ResponseDisplay.jsonPretty j), "application/json")
      else
        Except.ok (none, "text/html")

/-- The `except` handler of the try block:
`error_msg = "Request failed: " + str(err)` written to both the response
area and the status bar, history untouched. -/
def requestFailedResult (err : String) (store : Store) (req : SentRequest) :
    ProcResult :=
  { response_set := some (ResponseDisplay.plain ("Request failed: " ++ err))
    status_set := some ("Request failed: " ++ err)
    store := store
    sent := some req }

/-- The success-path status-bar summary of `process_request`. -/
def statusSummary (timestamp response_content_type : String) (code : Nat)
    (elapsed : String) (size : Nat) : String :=
  "Response: Timestamp=" ++ timestamp ++ ", Content-Type=" ++ response_content_type ++
    ", Code=" ++ toString code ++ ", Elapsed=" ++ elapsed ++
    ", Size=" ++ toString size ++ " B."

/-- `HReqApplication.process_request` / `Application.process_request` (the
two sources are identical here).  Widget reads become arguments; the two
external effects (`json.loads` on the headers text, the HTTP dispatch) are
the oracle arguments `headersParse` and `http`; `timestamp` is the
`datetime.datetime.utcnow()` string computed before the try block. -/
def process_request (selected_http_verb : Verb) (selected_url : String)
    (content_type_label : ContentTypeLabel) (body_text headers_text : String)
    (headersParse : Except String (List (String × Json)))
    (http : Except String HttpResponse) (timestamp : String) (store : Store) :
    ProcResult :=
  match mergedHeaders content_type_label headers_text headersParse with
  | Except.error err =>
    { response_set := some (ResponseDisplay.plain ("Failed to parse given headers: " ++ err))
      status_set := none
      store := store
      sent := none }
  | Except.ok headers =>
    let req : SentRequest :=
      { method := pyLower (Verb.text selected_http_verb)
        url := selected_url
        data := computeData (Verb.text selected_http_verb)
                  (requestContentType content_type_label) body_text
        headers := headers
        timeout := REQUEST_TIMEOUT_SEC }
    match http with
    | Except.error err => requestFailedResult err store req
    | Except.ok response =>
      match responseOutcome response with
      | Except.error err => requestFailedResult err store req
      | Except.ok (display, response_content_type) =>
        { response_set := display
          status_set := some (statusSummary timestamp response_content_type
            response.status_code response.elapsed response.content_size)
          store := fun w =>
            if w = selected_http_verb then
              store selected_http_verb ++
                [{ label := Verb.text selected_http_verb ++ " #" ++
                     toString ((store selected_http_verb).length + 1)
                   fields :=
                     { selected_http_verb := Verb.text selected_http_verb
                       selected_url := selected_url
                       content_type_text := contentTypeText content_type_label
                       body_text := body_text
                       headers_text := headers_text } }]
            else store w
          sent := some req }

/-- `delete_request_history_entry` for the selected child at position `k`
under verb `v`: `removeChild(selected)` followed by the renumbering loop
`child(i).setText(0, http_verb + " #" + str(i+1))` over every remaining
child (fields are untouched, only the display text changes). -/
def delete_request_history_entry (s : Store) (v : Verb) (k : Nat) : Store :=
  fun w =>
    if w = v then
      ((s v).eraseIdx k).enum.map
        (fun p => { label := Verb.text v ++ " #" ++ toString (p.1 + 1)
                    fields := p.2.fields })
    else s w

/-- One `_request_fields` dict as serialised by `json.dump` in
`save_request_history` (field order as written in `process_request`). -/
def fieldsToJson (f : RequestFields) : Json :=
  Json.obj [("selected_http_verb", Json.str f.selected_http_verb),
            ("selected_url", Json.str f.selected_url),
            ("content_type_text", Json.str f.content_type_text),
            ("body_text", Json.str f.body_text),
            ("headers_text", Json.str f.headers_text)]

/-- `save_request_history`, up to the interactive file-path choice: the JSON
value written to the chosen file (`json.dump(data, file, indent=4)` is a
faithful, invertible text encoding of this value).  Iterates
`http_verbs_map` in insertion order and collects every child's
`_request_fields`. -/
def save_request_history (store : Store) : Json :=
  Json.obj (verbs.map (fun v =>
    (Verb.text v, Json.arr ((store v).map (fun e => fieldsToJson e.fields)))))

/-- Python string extraction for one loaded field.  A loaded entry's fields
are read with `entry["..."]`; a missing key raises `KeyError`.  (A non-string
value would be accepted by the Python code and stored as-is; it is modelled
as a failure here, and no claim depends on that case since every value the
application saves is a string.) -/
def jsonAsString : Json → Option String
  | Json.str s => some s
  | _ => none

/-- Reading one entry object of a loaded history file into its
`_request_fields` payload; `none` models the `KeyError` of a missing key. -/
def fieldsFromJson : Json → Option RequestFields
  | Json.obj kvs => do
    let v1 ← (lastGet kvs "selected_http_verb").bind jsonAsString
    let v2 ← (lastGet kvs "selected_url").bind jsonAsString
    let v3 ← (lastGet kvs "content_type_text").bind jsonAsString
    let v4 ← (lastGet kvs "body_text").bind jsonAsString
    let v5 ← (lastGet kvs "headers_text").bind jsonAsString
    pure { selected_http_verb := v1, selected_url := v2, content_type_text := v3
           body_text := v4, headers_text := v5 }
  | _ => none

/-- The `request_history_http_verbs[http_verb]` lookup of the load loop;
`none` models the `KeyError` for a key that is not one of the seven verbs. -/
def parseVerb (s : String) : Option Verb :=
  (verbs.find? (fun v => Verb.text v = s))

/-- The inner loop of `load_request_history`: `for entry in values`, each
iteration computing `next_request_id = childCount() + 1` on the current tree
and appending a child labelled `http_verb + " #" + str(next_request_id)`. -/
def loadEntries (v : Verb) (entries : List Json) (s : Store) : Option Store :=
  match entries with
  | [] => some s
  | e :: rest =>
    match fieldsFromJson e with
    | none => none
    | some f =>
      loadEntries v rest (fun w =>
        if w = v then
          s v ++ [{ label := Verb.text v ++ " #" ++ toString ((s v).length + 1)
                    fields := f }]
        else s w)

/-- The outer loop of `load_request_history`: `for http_verb, values in
data.items()`.  A value that is not an array, or an unknown verb key, makes
the Python loop raise; that is modelled as `none` (the Python exception
would propagate after the earlier appends already happened — no claim
depends on that partially-applied state). -/
def loadItems (items : List (String × Json)) (s : Store) : Option Store :=
  match items with
  | [] => some s
  | (verbStr, valuesJson) :: rest =>
    match parseVerb verbStr with
    | none => none
    | some v =>
      match valuesJson with
      | Json.arr entries =>
        match loadEntries v entries s with
        | none => none
        | some s2 => loadItems rest s2
      | _ => none

/-- `load_request_history`, up to the interactive file-path choice: `data`
is the `json.load` of the chosen file; the entries listed under each verb
are appended to that verb's current children. -/
def load_request_history (data : Json) (s : Store) : Option Store :=
  match data with
  | Json.obj items => loadItems items s
  | _ => none

/-! ### Helper lemmas about the Python dict model -/

theorem dictGet_dictInsert (d : List (String × Json)) (k1 : String) (v1 : Json)
    (k : String) :
    dictGet (dictInsert d k1 v1) k = if k1 = k then some v1 else dictGet d k := by
  unfold dictGet dictInsert
  by_cases hmem : d.any (fun p => p.1 = k1) = true
  · rw [if_pos hmem, List.find?_map]
    by_cases hk : k1 = k
    · subst hk
      have hpred : ((fun p => decide (p.1 = k1)) ∘
          fun p => if p.1 = k1 then (k1, v1) else p) = fun p => decide (p.1 = k1) := by
        funext p
        by_cases h : p.1 = k1 <;> simp [h]
      rw [hpred]
      obtain ⟨p0, hp0mem, hp0⟩ := List.any_eq_true.mp hmem
      have hsome : (d.find? fun p => decide (p.1 = k1)).isSome := by
        rw [List.find?_isSome]
        exact ⟨p0, hp0mem, by simpa using hp0⟩
      obtain ⟨q, hq⟩ := Option.isSome_iff_exists.mp hsome
      have hqk : q.1 = k1 := by simpa using List.find?_some hq
      simp [hq, hqk]
    · have hpred : ((fun p => decide (p.1 = k)) ∘
          fun p => if p.1 = k1 then (k1, v1) else p) = fun p => decide (p.1 = k) := by
        funext p
        by_cases h : p.1 = k1 <;> simp [h, hk, Ne.symm hk]
      rw [hpred, if_neg hk]
      cases hfind : d.find? fun p => decide (p.1 = k) with
      | none => simp
      | some q =>
        have hqk : q.1 = k := by simpa using List.find?_some hfind
        have hqk1 : ¬ q.1 = k1 := by rw [hqk]; exact fun h => hk h.symm
        simp [hqk1]
  · rw [if_neg hmem, List.find?_append]
    by_cases hk : k1 = k
    · subst hk
      have hnone : d.find? (fun p => decide (p.1 = k1)) = none := by
        rw [List.find?_eq_none]
        intro p hp
        simp only [decide_eq_true_eq]
        intro hcontra
        exact hmem (List.any_eq_true.mpr ⟨p, hp, by simpa using hcontra⟩)
      simp [hnone, List.find?]
    · simp only [if_neg hk]
      have htail : List.find? (fun p => decide (p.1 = k)) [(k1, v1)] = none := by
        simp [List.find?, hk]
      rw [htail, Option.or_none]

theorem dictGet_dictUpdate (d : List (String × Json))
    (upd : List (String × Json)) (k : String) :
    dictGet (dictUpdate d upd) k =
      match lastGet upd k with
      | some v => some v
      | none => dictGet d k := by
  induction upd generalizing d with
  | nil => rfl
  | cons p rest ih =>
    obtain ⟨k1, v1⟩ := p
    have hstep : dictUpdate d ((k1, v1) :: rest) = dictUpdate (dictInsert d k1 v1) rest := rfl
    rw [hstep, ih, lastGet]
    cases h : lastGet rest k with
    | some v => rfl
    | none =>
      rw [dictGet_dictInsert]
      by_cases hk : k1 = k <;> simp [hk]

/-! ### Helper lemmas about history persistence -/

theorem fieldsFromJson_fieldsToJson (f : RequestFields) :
    fieldsFromJson (fieldsToJson f) = some f := by
  cases f
  rfl

theorem parseVerb_text (v : Verb) : parseVerb (Verb.text v) = some v := by
  cases v <;> rfl

theorem loadEntries_saved (v : Verb) (l : List RequestFields) :
    ∀ s : Store, ∃ s2 : Store,
      loadEntries v (l.map fieldsToJson) s = some s2 ∧
      (s2 v).map HistEntry.fields = (s v).map HistEntry.fields ++ l ∧
      ∀ w, w ≠ v → s2 w = s w := by
  induction l with
  | nil =>
    intro s
    exact ⟨s, rfl, by simp, fun w _ => rfl⟩
  | cons f rest ih =>
    intro s
    obtain ⟨s2, h1, h2, h3⟩ := ih (fun w =>
      if w = v then
        s v ++ [{ label := Verb.text v ++ " #" ++ toString ((s v).length + 1)
                  fields := f }]
      else s w)
    refine ⟨s2, ?_, ?_, ?_⟩
    · rw [List.map_cons, loadEntries, fieldsFromJson_fieldsToJson]
      exact h1
    · rw [h2]
      simp
    · intro w hw
      rw [h3 w hw]
      simp [hw]

theorem loadItems_saved (vs : List Verb) (store : Store) (hnd : vs.Nodup) :
    ∀ s : Store, ∃ s2 : Store,
      loadItems (vs.map (fun v =>
        (Verb.text v, Json.arr ((store v).map (fun e => fieldsToJson e.fields))))) s
        = some s2 ∧
      (∀ w, w ∈ vs →
        (s2 w).map HistEntry.fields =
          (s w).map HistEntry.fields ++ (store w).map HistEntry.fields) ∧
      ∀ w, w ∉ vs → s2 w = s w := by
  induction vs with
  | nil =>
    intro s
    exact ⟨s, rfl, fun w hw => absurd hw (List.not_mem_nil w), fun w _ => rfl⟩
  | cons v rest ih =>
    intro s
    rw [List.nodup_cons] at hnd
    obtain ⟨hv, hrest⟩ := hnd
    have hmapped : ((store v).map (fun e => fieldsToJson e.fields)) =
        ((store v).map HistEntry.fields).map fieldsToJson := by
      rw [List.map_map]
      rfl
    obtain ⟨s1, hs1, hs1v, hs1w⟩ := loadEntries_saved v ((store v).map HistEntry.fields) s
    obtain ⟨s2, hs2, hs2mem, hs2out⟩ := ih hrest s1
    refine ⟨s2, ?_, ?_, ?_⟩
    · rw [List.map_cons, loadItems, parseVerb_text]
      simp only [hmapped, hs1, hs2]
    · intro w hw
      rcases List.mem_cons.mp hw with hwv | hwrest
      · subst hwv
        rw [hs2out w hv, hs1v]
      · have hwne : w ≠ v := fun h => hv (h ▸ hwrest)
        rw [hs2mem w hwrest, hs1w w hwne]
    · intro w hw
      have hwv : w ≠ v := fun h => hw (h ▸ List.mem_cons_self v rest)
      have hwrest : w ∉ rest := fun h => hw (List.mem_cons_of_mem v h)
      rw [hs2out w hwrest, hs1w w hwv]

/-! ### Claims -/

/-- Claim C1, as stated, is false on the code: the body string is attached to
the outgoing request for a GET as well.  At method GET with bodyText "x"
(non-empty after trimming), the request handed to the HTTP client carries
data "x", not None: the assignment `data = body_text` is guarded only by
`body_text.strip()`, and the method check merely guards no-op
re-assignments. -/
theorem c1_counterexample :
    ((process_request Verb.GET "http://example.com" ContentTypeLabel.PLAIN "x" ""
        (Except.ok []) (Except.error "connection refused") "ts" emptyStore).sent.map
      SentRequest.data) = some (some "x") := by
  rfl

/-- Claim C1 (amended): whenever `process_request` reaches the HTTP dispatch,
the body attached to the outgoing request is the body string exactly when it
is non-empty after trimming, for every method and content-type label; it is
None only when the body trims to empty. -/
theorem c1_effective_body (v : Verb) (url : String) (l : ContentTypeLabel)
    (body_text headers_text : String)
    (headersParse : Except String (List (String × Json)))
    (http : Except String HttpResponse) (ts : String) (s : Store)
    (req : SentRequest)
    (hreq : (process_request v url l body_text headers_text headersParse
        http ts s).sent = some req) :
    req.data = if pyStrip body_text = "" then none else some body_text := by
  have hdata : computeData (Verb.text v) (requestContentType l) body_text =
      if pyStrip body_text = "" then none else some body_text := by
    unfold computeData
    split
    · rfl
    · split
      · split
        · rfl
        · split
          · rfl
          · split <;> rfl
      · rfl
  cases hm : mergedHeaders l headers_text headersParse with
  | error e =>
    simp only [process_request, hm] at hreq
    exact absurd hreq (by simp)
  | ok hs =>
    simp only [process_request, hm] at hreq
    cases http with
    | error e =>
      simp only [requestFailedResult, Option.some.injEq] at hreq
      rw [← hreq, ← hdata]
    | ok response =>
      cases hro : responseOutcome response with
      | error e =>
        simp only [hro, requestFailedResult, Option.some.injEq] at hreq
        rw [← hreq, ← hdata]
      | ok pair =>
        obtain ⟨display, rct⟩ := pair
        simp only [hro, Option.some.injEq] at hreq
        rw [← hreq, ← hdata]

/-- Claim C1 witness: a POST with non-blank body attaches the body string. -/
theorem c1_effective_body_witness :
    ((process_request Verb.POST "http://example.com" ContentTypeLabel.JSON "p"
        "" (Except.ok []) (Except.error "e") "ts" emptyStore).sent = some
      { method := "post", url := "http://example.com", data := some "p"
        headers := [("Content-Type", Json.str "application/json")]
        timeout := 30 }) ∧
    ({ method := "post", url := "http://example.com", data := some "p"
       headers := [("Content-Type", Json.str "application/json")]
       timeout := 30 : SentRequest }.data
      = if pyStrip "p" = "" then none else some "p") :=
  ⟨by rfl,
   c1_effective_body Verb.POST "http://example.com" ContentTypeLabel.JSON "p"
     "" (Except.ok []) (Except.error "e") "ts" emptyStore _ (by rfl)⟩

/-- Claim C2: the PLAIN and JSON mappings are as specified, but the XML label
maps to "application/xml " with a trailing space, not "application/xml".
The code contradicts itself here: its own XML body-validation branch
compares `request_content_type` against the space-free "application/xml",
an equality the trailing space makes unreachable. -/
theorem c2_mime_mapping_evaluation :
    requestContentType ContentTypeLabel.PLAIN = "text/plain" ∧
    requestContentType ContentTypeLabel.JSON = "application/json" ∧
    requestContentType ContentTypeLabel.XML = "application/xml " ∧
    ¬ requestContentType ContentTypeLabel.XML = "application/xml" := by
  refine ⟨rfl, rfl, rfl, ?_⟩
  decide

/-- Claim C3: loading a history file appends the file's entries to the
in-memory store instead of replacing it.  With a store already holding one
GET entry and a file listing one (different) GET entry, the GET sequence
after the load holds both entries, the pre-existing one first — not exactly
the file's contents.  The code contradicts its own comment "(overwrite
everything)". -/
theorem c3_load_appends_evaluation :
    (load_request_history
        (Json.obj [("GET", Json.arr [fieldsToJson
          { selected_http_verb := "GET", selected_url := "http://b.example"
            content_type_text := "PLAIN", body_text := "", headers_text := "" }])])
        (fun w => if w = Verb.GET then
            [{ label := "GET #1"
               fields := { selected_http_verb := "GET"
                           selected_url := "http://a.example"
                           content_type_text := "PLAIN", body_text := ""
                           headers_text := "" } }]
          else [])).map (fun s => (s Verb.GET).map HistEntry.fields)
      = some [{ selected_http_verb := "GET", selected_url := "http://a.example"
                content_type_text := "PLAIN", body_text := "", headers_text := "" },
              { selected_http_verb := "GET", selected_url := "http://b.example"
                content_type_text := "PLAIN", body_text := "", headers_text := "" }] := by
  rfl

/-- Claim C4: the effective header map always contains a Content-Type key;
its value is the default computed from the content-type label unless the
parsed headers object supplies its own Content-Type key, in which case the
user's value wins (`lastGet` is the lookup of the dict `json.loads` builds
from the object's key/value pairs). -/
theorem c4_content_type_always_present (label : ContentTypeLabel)
    (custom : List (String × Json)) :
    dictGet (effectiveHeaders label custom) "Content-Type" =
      some ((lastGet custom "Content-Type").getD
        (Json.str (requestContentType label))) := by
  rw [effectiveHeaders, dictGet_dictUpdate]
  cases h : lastGet custom "Content-Type" with
  | some v => rfl
  | none => rfl

/-- The header-merge step succeeds whenever the headers text is blank or the
parse oracle returns an object. -/
theorem mergedHeaders_ok (l : ContentTypeLabel) (headers_text : String)
    (headersParse : Except String (List (String × Json)))
    (hh : pyStrip headers_text = "" ∨
      ∃ custom, headersParse = Except.ok custom) :
    ∃ hs, mergedHeaders l headers_text headersParse = Except.ok hs := by
  unfold mergedHeaders
  by_cases hb : pyStrip headers_text = ""
  · exact ⟨_, by rw [if_pos hb]⟩
  · rcases hh with hb2 | ⟨custom, hc⟩
    · exact absurd hb2 hb
    · rw [if_neg hb, hc]
      exact ⟨_, rfl⟩

/-- Claim C5: when the headers text is non-blank and its JSON-object parse
fails with message err, composition stops on the parse error: the message
"Failed to parse given headers: {err}" (which contains the underlying parse
failure text err as a suffix) is written to the response area, the HTTP
dispatch is never reached, and the history and status line are untouched. -/
theorem c5_header_parse_failure (v : Verb) (url : String) (l : ContentTypeLabel)
    (body_text headers_text : String) (err : String)
    (http : Except String HttpResponse) (ts : String) (s : Store)
    (hblank : ¬ pyStrip headers_text = "") :
    process_request v url l body_text headers_text (Except.error err) http ts s =
      { response_set := some (ResponseDisplay.plain
          ("Failed to parse given headers: " ++ err))
        status_set := none, store := s, sent := none } ∧
    ∃ pre, "Failed to parse given headers: " ++ err = pre ++ err := by
  constructor
  · have hm : mergedHeaders l headers_text (Except.error err) =
        Except.error err := by
      unfold mergedHeaders
      rw [if_neg hblank]
    simp only [process_request, hm]
  · exact ⟨"Failed to parse given headers: ", rfl⟩

/-- Claim C5 witness: headers text "not json" failing to parse with the
message Python's json module produces for it. -/
theorem c5_header_parse_failure_witness :
    (¬ pyStrip "not json" = "") ∧
    (process_request Verb.GET "http://example.com" ContentTypeLabel.JSON ""
        "not json" (Except.error "Expecting value: line 1 column 1 (char 0)")
        (Except.error "unused") "ts" emptyStore =
      { response_set := some (ResponseDisplay.plain
          ("Failed to parse given headers: " ++
            "Expecting value: line 1 column 1 (char 0)"))
        status_set := none, store := emptyStore, sent := none } ∧
     ∃ pre, "Failed to parse given headers: " ++
        "Expecting value: line 1 column 1 (char 0)" =
          pre ++ "Expecting value: line 1 column 1 (char 0)") :=
  ⟨by decide,
   c5_header_parse_failure Verb.GET "http://example.com" ContentTypeLabel.JSON
     "" "not json" "Expecting value: line 1 column 1 (char 0)"
     (Except.error "unused") "ts" emptyStore (by decide)⟩

/-- Claim C6, as stated, is false on the code: a non-2xx status does not
always take the failure path.  A 304 response (non-2xx) passes
`raise_for_status` untouched, so the success path runs: its body is
rendered, the status line shows the success summary, and a history entry IS
created. -/
theorem c6_counterexample :
    (((process_request Verb.GET "http://e.example" ContentTypeLabel.PLAIN "" ""
        (Except.ok [])
        (Except.ok { status_code := 304, reason := "Not Modified"
                     url := "http://e.example"
                     headers := [("Content-Type", "text/html")], text := ""
                     jsonResult := Except.error "no body"
                     elapsed := "0:00:00.010000", content_size := 0 })
        "ts" emptyStore).store Verb.GET).length = 1) ∧
    ((process_request Verb.GET "http://e.example" ContentTypeLabel.PLAIN "" ""
        (Except.ok [])
        (Except.ok { status_code := 304, reason := "Not Modified"
                     url := "http://e.example"
                     headers := [("Content-Type", "text/html")], text := ""
                     jsonResult := Except.error "no body"
                     elapsed := "0:00:00.010000", content_size := 0 })
        "ts" emptyStore).response_set = some (ResponseDisplay.html "")) :=
  ⟨rfl, rfl⟩

/-- Claim C6 (amended): for every dispatch failure — a raising client call
(transport/connection failure or timeout), or an HTTP status in 400..599,
exactly the statuses `raise_for_status` raises on — the error string
"Request failed: {details}" is shown in both the response area and the
status line, and no history entry is created.  (A non-2xx status outside
400..599, such as 304, is not treated as a failure by the code.) -/
theorem c6_request_failure (v : Verb) (url : String) (l : ContentTypeLabel)
    (body_text headers_text : String)
    (headersParse : Except String (List (String × Json)))
    (http : Except String HttpResponse) (ts : String) (s : Store)
    (hh : pyStrip headers_text = "" ∨
      ∃ custom, headersParse = Except.ok custom)
    (hfail : (∃ e, http = Except.error e) ∨
      ∃ resp, http = Except.ok resp ∧
        400 ≤ resp.status_code ∧ resp.status_code < 600) :
    ∃ details,
      (process_request v url l body_text headers_text headersParse http ts
          s).response_set
        = some (ResponseDisplay.plain ("Request failed: " ++ details)) ∧
      (process_request v url l body_text headers_text headersParse http ts
          s).status_set = some ("Request failed: " ++ details) ∧
      (process_request v url l body_text headers_text headersParse http ts
          s).store = s := by
  obtain ⟨hs, hm⟩ := mergedHeaders_ok l headers_text headersParse hh
  rcases hfail with ⟨e, he⟩ | ⟨resp, hresp, hstat⟩
  · subst he
    refine ⟨e, ?_, ?_, ?_⟩ <;>
      simp only [process_request, hm, requestFailedResult]
  · subst hresp
    have hro : responseOutcome resp =
        Except.error (raiseForStatusMsg resp) := by
      unfold responseOutcome
      rw [if_pos hstat]
    refine ⟨raiseForStatusMsg resp, ?_, ?_, ?_⟩ <;>
      simp only [process_request, hm, hro, requestFailedResult]

/-- Claim C6 witness: a 404 response takes the failure path. -/
theorem c6_request_failure_witness :
    ((400 : Nat) ≤ 404 ∧ (404 : Nat) < 600) ∧
    ∃ details,
      (process_request Verb.GET "http://e.example" ContentTypeLabel.PLAIN "" ""
          (Except.ok [])
          (Except.ok { status_code := 404, reason := "NOT FOUND"
                       url := "http://e.example", headers := [], text := ""
                       jsonResult := Except.error "no body"
                       elapsed := "0:00:00.010000", content_size := 0 })
          "ts" emptyStore).response_set
        = some (ResponseDisplay.plain ("Request failed: " ++ details)) ∧
      (process_request Verb.GET "http://e.example" ContentTypeLabel.PLAIN "" ""
          (Except.ok [])
          (Except.ok { status_code := 404, reason := "NOT FOUND"
                       url := "http://e.example", headers := [], text := ""
                       jsonResult := Except.error "no body"
                       elapsed := "0:00:00.010000", content_size := 0 })
          "ts" emptyStore).status_set
        = some ("Request failed: " ++ details) ∧
      (process_request Verb.GET "http://e.example" ContentTypeLabel.PLAIN "" ""
          (Except.ok [])
          (Except.ok { status_code := 404, reason := "NOT FOUND"
                       url := "http://e.example", headers := [], text := ""
                       jsonResult := Except.error "no body"
                       elapsed := "0:00:00.010000", content_size := 0 })
          "ts" emptyStore).store = emptyStore :=
  ⟨by decide,
   c6_request_failure Verb.GET "http://e.example" ContentTypeLabel.PLAIN "" ""
     (Except.ok [])
     (Except.ok { status_code := 404, reason := "NOT FOUND"
                  url := "http://e.example", headers := [], text := ""
                  jsonResult := Except.error "no body"
                  elapsed := "0:00:00.010000", content_size := 0 })
     "ts" emptyStore (Or.inl rfl)
     (Or.inr ⟨_, rfl, by decide, by decide⟩)⟩

/-- Claim C7: saving any history store and loading the file back into a
fresh (empty) store succeeds and reproduces, for every method, the same
sequence of entries on all five string fields, in the same order. -/
theorem c7_save_load_roundtrip (store : Store) (v : Verb) :
    (load_request_history (save_request_history store) emptyStore).map
        (fun s => (s v).map HistEntry.fields)
      = some ((store v).map HistEntry.fields) := by
  obtain ⟨s2, hload, hmem, _⟩ := loadItems_saved verbs store (by decide) emptyStore
  have hload2 : load_request_history (save_request_history store) emptyStore
      = some s2 := hload
  rw [hload2, Option.map_some']
  have hv : v ∈ verbs := by cases v <;> decide
  rw [hmem v hv]
  simp [emptyStore]

/-- Claim C8: on a successful response (no raising status, Content-Type
present, and — in the application/json branch — a parsable body), the entry
appended under the selected method holds the method text, url, content-type
label text, body text and headers text exactly as entered, labelled
"{method} #{count+1}" for count the number of existing entries of that
method; every other method's sequence is untouched. -/
theorem c8_history_append (v : Verb) (url : String) (l : ContentTypeLabel)
    (body_text headers_text : String)
    (headersParse : Except String (List (String × Json)))
    (resp : HttpResponse) (ts : String) (s : Store) (ct : String)
    (hh : pyStrip headers_text = "" ∨
      ∃ custom, headersParse = Except.ok custom)
    (hstatus : ¬ (400 ≤ resp.status_code ∧ resp.status_code < 600))
    (hct : headerLookupCI resp.headers "Content-Type" = some ct)
    (hjson : pyStartswith ct "text/html" = false →
      pyStartswith ct "application/json" = true →
      ∃ j, resp.jsonResult = Except.ok j) :
    ((process_request v url l body_text headers_text headersParse
        (Except.ok resp) ts s).store v
      = s v ++ [{ label := Verb.text v ++ " #" ++ toString ((s v).length + 1)
                  fields := { selected_http_verb := Verb.text v
                              selected_url := url
                              content_type_text := contentTypeText l
                              body_text := body_text
                              headers_text := headers_text } }]) ∧
    ∀ w, w ≠ v → (process_request v url l body_text headers_text headersParse
        (Except.ok resp) ts s).store w = s w := by
  obtain ⟨hs, hm⟩ := mergedHeaders_ok l headers_text headersParse hh
  have hro : ∃ pair, responseOutcome resp = Except.ok pair := by
    unfold responseOutcome
    rw [if_neg hstatus]
    simp only [hct]
    by_cases h1 : pyStartswith ct "text/html" = true
    · rw [if_pos h1]
      exact ⟨_, rfl⟩
    · rw [if_neg h1]
      by_cases h2 : pyStartswith ct "application/json" = true
      · obtain ⟨j, hj⟩ := hjson (by simpa using h1) h2
        rw [if_pos h2, hj]
        exact ⟨_, rfl⟩
      · rw [if_neg h2]
        exact ⟨_, rfl⟩
  obtain ⟨pair, hro⟩ := hro
  obtain ⟨display, rct⟩ := pair
  constructor
  · simp only [process_request, hm, hro]
    simp
  · intro w hw
    simp only [process_request, hm, hro]
    simp [hw]

/-- Claim C8 witness: a 200 text/html response appends "GET #1" with the
entered fields to an empty history. -/
theorem c8_history_append_witness :
    (headerLookupCI [("Content-Type", "text/html")] "Content-Type"
      = some "text/html") ∧
    ((process_request Verb.GET "http://w.example" ContentTypeLabel.PLAIN "b" ""
        (Except.ok [])
        (Except.ok { status_code := 200, reason := "OK"
                     url := "http://w.example"
                     headers := [("Content-Type", "text/html")], text := "hi"
                     jsonResult := Except.error "not json"
                     elapsed := "0:00:00.010000", content_size := 2 })
        "ts" emptyStore).store Verb.GET
      = emptyStore Verb.GET ++
        [{ label := Verb.text Verb.GET ++ " #" ++
             toString ((emptyStore Verb.GET).length + 1)
           fields := { selected_http_verb := Verb.text Verb.GET
                       selected_url := "http://w.example"
                       content_type_text := contentTypeText ContentTypeLabel.PLAIN
                       body_text := "b"
                       headers_text := "" } }]) :=
  ⟨by decide,
   (c8_history_append Verb.GET "http://w.example" ContentTypeLabel.PLAIN "b" ""
     (Except.ok [])
     { status_code := 200, reason := "OK", url := "http://w.example"
       headers := [("Content-Type", "text/html")], text := "hi"
       jsonResult := Except.error "not json"
       elapsed := "0:00:00.010000", content_size := 2 }
     "ts" emptyStore "text/html" (Or.inl rfl) (by decide) (by decide)
     (fun h1 _ => absurd h1 (by decide))).1⟩

/-- Mapping commutes with removing the element at an index. -/
theorem map_eraseIdx_comm {α β : Type} (f : α → β) (l : List α) (k : Nat) :
    (l.eraseIdx k).map f = (l.map f).eraseIdx k := by
  induction l generalizing k with
  | nil => simp
  | cons a t ih => cases k <;> simp [List.eraseIdx, ih]

/-- Claim C9: deleting the entry at position k under a method removes
exactly that entry — the remaining entries keep their field contents and
relative order — and renumbers the display labels contiguously as
"{method} #1" .. "{method} #{n-1}"; other methods are untouched. -/
theorem c9_delete_renumbers (s : Store) (v : Verb) (k : Nat)
    (hk : k < (s v).length) :
    ((delete_request_history_entry s v k) v).length = (s v).length - 1 ∧
    ((delete_request_history_entry s v k) v).map HistEntry.fields
      = ((s v).map HistEntry.fields).eraseIdx k ∧
    (∀ i, ∀ hi : i < ((delete_request_history_entry s v k) v).length,
      (((delete_request_history_entry s v k) v).get ⟨i, hi⟩).label
        = Verb.text v ++ " #" ++ toString (i + 1)) ∧
    ∀ w, w ≠ v → (delete_request_history_entry s v k) w = s w := by
  have hv : (delete_request_history_entry s v k) v =
      ((s v).eraseIdx k).enum.map
        (fun p => { label := Verb.text v ++ " #" ++ toString (p.1 + 1)
                    fields := p.2.fields }) := by
    unfold delete_request_history_entry
    rw [if_pos rfl]
  refine ⟨?_, ?_, ?_, ?_⟩
  · rw [hv]
    simp [List.length_eraseIdx, hk]
  · rw [hv, List.map_map, ← map_eraseIdx_comm]
    have hcomp : (HistEntry.fields ∘
        fun p : Nat × HistEntry =>
          ({ label := Verb.text v ++ " #" ++ toString (p.1 + 1)
             fields := p.2.fields } : HistEntry))
        = HistEntry.fields ∘ Prod.snd := rfl
    rw [hcomp, ← List.map_map, List.enum_map_snd]
  · intro i hi
    rw [List.get_of_eq hv ⟨i, hi⟩]
    simp [List.get_eq_getElem, List.getElem_map, List.getElem_enum]
  · intro w hw
    unfold delete_request_history_entry
    rw [if_neg hw]

/-- Claim C9 witness: deleting entry 2 of three GET entries keeps the first
and third entries' fields in order. -/
theorem c9_delete_renumbers_witness :
    (1 < ((fun w => if w = Verb.GET then
        [{ label := "GET #1"
           fields := { selected_http_verb := "GET", selected_url := "u1"
                       content_type_text := "PLAIN", body_text := "b1"
                       headers_text := "h1" } },
         { label := "GET #2"
           fields := { selected_http_verb := "GET", selected_url := "u2"
                       content_type_text := "JSON", body_text := "b2"
                       headers_text := "h2" } },
         { label := "GET #3"
           fields := { selected_http_verb := "GET", selected_url := "u3"
                       content_type_text := "XML", body_text := "b3"
                       headers_text := "h3" } }]
      else ([] : List HistEntry)) Verb.GET).length) ∧
    ((delete_request_history_entry (fun w => if w = Verb.GET then
        [{ label := "GET #1"
           fields := { selected_http_verb := "GET", selected_url := "u1"
                       content_type_text := "PLAIN", body_text := "b1"
                       headers_text := "h1" } },
         { label := "GET #2"
           fields := { selected_http_verb := "GET", selected_url := "u2"
                       content_type_text := "JSON", body_text := "b2"
                       headers_text := "h2" } },
         { label := "GET #3"
           fields := { selected_http_verb := "GET", selected_url := "u3"
                       content_type_text := "XML", body_text := "b3"
                       headers_text := "h3" } }]
      else ([] : List HistEntry)) Verb.GET 1) Verb.GET).map HistEntry.fields
      = (((fun w => if w = Verb.GET then
        [{ label := "GET #1"
           fields := { selected_http_verb := "GET", selected_url := "u1"
                       content_type_text := "PLAIN", body_text := "b1"
                       headers_text := "h1" } },
         { label := "GET #2"
           fields := { selected_http_verb := "GET", selected_url := "u2"
                       content_type_text := "JSON", body_text := "b2"
                       headers_text := "h2" } },
         { label := "GET #3"
           fields := { selected_http_verb := "GET", selected_url := "u3"
                       content_type_text := "XML", body_text := "b3"
                       headers_text := "h3" } }]
      else ([] : List HistEntry)) Verb.GET).map HistEntry.fields).eraseIdx 1 :=
  ⟨by decide,
   (c9_delete_renumbers (fun w => if w = Verb.GET then
        [{ label := "GET #1"
           fields := { selected_http_verb := "GET", selected_url := "u1"
                       content_type_text := "PLAIN", body_text := "b1"
                       headers_text := "h1" } },
         { label := "GET #2"
           fields := { selected_http_verb := "GET", selected_url := "u2"
                       content_type_text := "JSON", body_text := "b2"
                       headers_text := "h2" } },
         { label := "GET #3"
           fields := { selected_http_verb := "GET", selected_url := "u3"
                       content_type_text := "XML", body_text := "b3"
                       headers_text := "h3" } }]
      else ([] : List HistEntry)) Verb.GET 1 (by decide)).2.1⟩

/-- Claim C10: a 2xx response with no Content-Type header at all makes the
unguarded `response.headers["Content-Type"]` lookup raise a KeyError, which
the catch-all handler converts to the generic failure report: the message
"Request failed: 'Content-Type'" is shown in both the response area and the
status line, and no history entry is appended.  (`process_request` is a
total function of its inputs: the exception is caught, the application does
not crash.) -/
theorem c10_missing_content_type (v : Verb) (url : String)
    (l : ContentTypeLabel) (body_text headers_text : String)
    (headersParse : Except String (List (String × Json)))
    (resp : HttpResponse) (ts : String) (s : Store)
    (hh : pyStrip headers_text = "" ∨
      ∃ custom, headersParse = Except.ok custom)
    (h2xx : 200 ≤ resp.status_code ∧ resp.status_code < 300)
    (hct : headerLookupCI resp.headers "Content-Type" = none) :
    ((process_request v url l body_text headers_text headersParse
        (Except.ok resp) ts s).response_set
      = some (ResponseDisplay.plain
          ("Request failed: " ++ quoteKey "Content-Type"))) ∧
    ((process_request v url l body_text headers_text headersParse
        (Except.ok resp) ts s).status_set
      = some ("Request failed: " ++ quoteKey "Content-Type")) ∧
    (process_request v url l body_text headers_text headersParse
        (Except.ok resp) ts s).store = s := by
  obtain ⟨hs, hm⟩ := mergedHeaders_ok l headers_text headersParse hh
  have hstatus : ¬ (400 ≤ resp.status_code ∧ resp.status_code < 600) := by
    omega
  have hro : responseOutcome resp =
      Except.error (quoteKey "Content-Type") := by
    unfold responseOutcome
    rw [if_neg hstatus]
    simp only [hct]
  refine ⟨?_, ?_, ?_⟩ <;>
    simp only [process_request, hm, hro, requestFailedResult]

/-- Claim C10 witness: a 200 response with an empty header map. -/
theorem c10_missing_content_type_witness :
    ((200 : Nat) ≤ 200 ∧ (200 : Nat) < 300) ∧
    (headerLookupCI ([] : List (String × String)) "Content-Type" = none) ∧
    ((process_request Verb.GET "http://m.example" ContentTypeLabel.PLAIN "" ""
        (Except.ok [])
        (Except.ok { status_code := 200, reason := "OK"
                     url := "http://m.example", headers := [], text := "x"
                     jsonResult := Except.error "not json"
                     elapsed := "0:00:00.010000", content_size := 1 })
        "ts" emptyStore).response_set
      = some (ResponseDisplay.plain
          ("Request failed: " ++ quoteKey "Content-Type"))) ∧
    ((process_request Verb.GET "http://m.example" ContentTypeLabel.PLAIN "" ""
        (Except.ok [])
        (Except.ok { status_code := 200, reason := "OK"
                     url := "http://m.example", headers := [], text := "x"
                     jsonResult := Except.error "not json"
                     elapsed := "0:00:00.010000", content_size := 1 })
        "ts" emptyStore).status_set
      = some ("Request failed: " ++ quoteKey "Content-Type")) ∧
    (process_request Verb.GET "http://m.example" ContentTypeLabel.PLAIN "" ""
        (Except.ok [])
        (Except.ok { status_code := 200, reason := "OK"
                     url := "http://m.example", headers := [], text := "x"
                     jsonResult := Except.error "not json"
                     elapsed := "0:00:00.010000", content_size := 1 })
        "ts" emptyStore).store = emptyStore :=
  ⟨by decide, rfl,
   c10_missing_content_type Verb.GET "http://m.example" ContentTypeLabel.PLAIN
     "" "" (Except.ok [])
     { status_code := 200, reason := "OK", url := "http://m.example"
       headers := [], text := "x", jsonResult := Except.error "not json"
       elapsed := "0:00:00.010000", content_size := 1 }
     "ts" emptyStore (Or.inl rfl) (by decide) rfl⟩
